import Mathlib

/-!
Verification of the telemeter repository slice: the telemeter-client main
program (`src/unnamed/part_000`), the telemeter-bench main program
(`src/cmd/telemeter-bench/main.go`), and the standalone authorization
server (`src/cmd/authorization-server/main.go`).

Go values are embedded as follows: Go strings become `String`, Go maps
become association lists with overwrite-on-insert (`mapInsert`), Go
`time.Duration` and millisecond timestamps become `Int`, fallible code
returns `Except String`, and the file system is an explicit parameter
`String → Option String` (`none` models a read error).  `url.Parse` and
`path.Join` from the Go standard library are abstract parameters of the
embedded functions, since no claim depends on their internals.
-/

namespace Telemeter

/-! ## Shared helpers: Go maps as association lists, strings.SplitN -/

/-- Go map insertion: overwrite the binding of `k` if present, else append. -/
def mapInsert (m : List (String × String)) (k v : String) : List (String × String) :=
  match m with
  | [] => [(k, v)]
  | (k', v') :: rest => if k' = k then (k, v) :: rest else (k', v') :: mapInsert rest k v

/-- Go map lookup. -/
def mapLookup (m : List (String × String)) (k : String) : Option String :=
  match m with
  | [] => none
  | (k', v') :: rest => if k' = k then some v' else mapLookup rest k

/-- Split a character list at the first occurrence of `c`; `none` when `c`
does not occur. -/
def splitFirst (c : Char) : List Char → Option (List Char × List Char)
  | [] => none
  | x :: rest =>
    if x = c then some ([], rest)
    else
      match splitFirst c rest with
      | none => none
      | some (a, b) => some (x :: a, b)

/-- Go `strings.SplitN(s, "=", 2)`: `[s]` when `s` contains no `=`, otherwise
the part before the first `=` and the remainder. -/
def splitN2Eq (s : String) : List String :=
  match splitFirst '=' s.data with
  | none => [s]
  | some (a, b) => [String.mk a, String.mk b]

/-- Go `strings.TrimSpace`: strip leading and trailing whitespace. -/
def trimSpace (s : String) : String :=
  String.mk (((s.data.dropWhile Char.isWhitespace).reverse.dropWhile Char.isWhitespace).reverse)

/-- Go `strings.Split(s, "\n")`. -/
def splitOnChar (c : Char) : List Char → List (List Char)
  | [] => [[]]
  | x :: rest =>
    match splitOnChar c rest with
    | [] => [[]]
    | g :: gs => if x = c then [] :: g :: gs else (x :: g) :: gs

/-- Go `strings.Split(s, "\n")` on a string. -/
def splitLines (s : String) : List String := (splitOnChar '\n' s.data).map String.mk

/-- `Except.isOk`-style test used to state "returns an error". -/
def exceptIsOk {ε α : Type} : Except ε α → Bool
  | .ok _ => true
  | .error _ => false

/-! ## Metric family data model -/

/-- One sample of a metric family: label pairs, a value, and an optional
timestamp in milliseconds since the epoch.  The numeric value is opaque to
every claim; it is carried as an `Int` stand-in. -/
structure Metric where
  labels : List (String × String)
  value : Int
  timestampMs : Option Int
  deriving DecidableEq, Repr

/-- A named batch of samples. -/
structure MetricFamily where
  name : String
  metrics : List Metric
  deriving DecidableEq, Repr

/-! ## The transformer chain built by `Options.Transforms` (telemeter-client)
and `transforms.Transforms` (telemeter-bench); the two bodies are identical. -/

/-- A transformer value appended to the `metricfamily.AllTransformer` list,
tagged with the configuration it is built from.  `retriever` records whether
the `LabelRetriever` interface value is non-nil. -/
inductive Transformer where
  | label (labels : List (String × String)) (retriever : Bool)
  | anonymizer (salt : String) (anonymizeLabels : List String)
  | rename (names : List (String × String))
  | dropInvalidFederateSamples (cutoffMs : Int)
  | packMetrics
  | sortMetrics
  deriving DecidableEq, Repr

/-- The stage a transformer value belongs to, forgetting its configuration. -/
inductive Stage where
  | label
  | anonymize
  | rename
  | dropStale
  | pack
  | sort
  deriving DecidableEq, Repr

def stageOf : Transformer → Stage
  | .label _ _ => .label
  | .anonymizer _ _ => .anonymize
  | .rename _ => .rename
  | .dropInvalidFederateSamples _ => .dropStale
  | .packMetrics => .pack
  | .sortMetrics => .sort

/-- The configuration fields read by the `Transforms` methods. -/
structure TransformConfig where
  labels : List (String × String)
  labelRetriever : Bool
  anonymizeLabels : List String
  anonymizeSalt : String
  renames : List (String × String)
  deriving Repr

/-- The body of `(*Options).Transforms` in part_000 lines 104–121 and of
`(*transforms).Transforms` in telemeter-bench lines 110–127.  The Go code
computes the cutoff as `time.Now().Add(-24 * time.Hour)`; `nowMs` is the
clock reading at that moment in milliseconds.  The Go method wraps the
list in a one-element `[]Transformer{transforms}`; the chain itself is the
inner `AllTransformer` list modelled here. -/
def Transforms (nowMs : Int) (t : TransformConfig) : List Transformer :=
  (if 0 < t.labels.length ∨ t.labelRetriever = true then
    [Transformer.label t.labels t.labelRetriever] else [])
  ++ (if 0 < t.anonymizeLabels.length then
    [Transformer.anonymizer t.anonymizeSalt t.anonymizeLabels] else [])
  ++ (if 0 < t.renames.length then
    [Transformer.rename t.renames] else [])
  ++ [Transformer.dropInvalidFederateSamples (nowMs - 24 * 60 * 60 * 1000),
      Transformer.packMetrics,
      Transformer.sortMetrics]

/-- The canonical stage order of the chain. -/
def canonicalStages : List Stage :=
  [Stage.label, Stage.anonymize, Stage.rename, Stage.dropStale, Stage.pack, Stage.sort]

/-! ## Spec-modelled transformer behaviours

The transformer implementations live in the repository's
`pkg/metricfamily`, which is not part of src/; only their construction
sites are.  The two behaviours that claims depend on are modelled from the
spec. -/

/-- Modelled from the spec: the body of the repository's
`metricfamily.NewDropInvalidFederateSamples` transformer is not part of
src/.  Spec §4.1 stage 4: "removes any sample whose timestamp predates a
cutoff …; samples lacking a timestamp are treated as fresh." -/
def dropStaleSamples (cutoffMs : Int) (f : MetricFamily) : MetricFamily :=
  { f with metrics := f.metrics.filter fun m =>
      match m.timestampMs with
      | none => true
      | some ts => decide (cutoffMs ≤ ts) }

/-- Modelled from the spec: the body of the repository's
`metricfamily.RenameMetrics` transformer is not part of src/.  Spec §4.1
stage 3: "exact-match rename of metric family names per a provided
old→new mapping; unmapped names pass through unchanged." -/
def renameMetrics (names : List (String × String)) (f : MetricFamily) : MetricFamily :=
  match mapLookup names f.name with
  | some newName => { f with name := newName }
  | none => f

/-! ## Reading secrets from files (part_000 lines 132–152,
telemeter-bench lines 134–147) -/

/-- Which file-read site of `Run` performed a read. -/
inductive ReadTag where
  | toTokenFile
  | fromTokenFile
  | anonymizeSaltFile
  | rulesFile
  | fromCAFile
  deriving DecidableEq, Repr

/-- One `if len(inline) == 0 && len(file) > 0 { data, err := ioutil.ReadFile(file); … ;
inline = strings.TrimSpace(string(data)) }` block of `Run`.  The second
component lists the file reads performed. -/
def resolveSecret (tag : ReadTag) (errMsg : String) (fs : String → Option String)
    (inlineVal file : String) : Except String String × List (ReadTag × String) :=
  if inlineVal = "" ∧ file ≠ "" then
    match fs file with
    | none => (.error errMsg, [])
    | some data => (.ok (trimSpace data), [(tag, file)])
  else (.ok inlineVal, [])

/-! ## Flag parsing loops of `Run` -/

/-- The `--label` loop (part_000 lines 157–166): each flag must split into
exactly two parts around the first `=`. -/
def parseLabelFlags : List String → List (String × String) →
    Except String (List (String × String))
  | [], acc => .ok acc
  | flag :: rest, acc =>
    match splitN2Eq flag with
    | [k, v] => parseLabelFlags rest (mapInsert acc k v)
    | _ => .error ("--label must be of the form key=value: " ++ flag)

/-- The `--rename` loop (part_000 lines 171–183): empty flags are skipped,
the rest must split into exactly two parts around the first `=`. -/
def parseRenameFlags : List String → List (String × String) →
    Except String (List (String × String))
  | [], acc => .ok acc
  | flag :: rest, acc =>
    if flag = "" then parseRenameFlags rest acc
    else
      match splitN2Eq flag with
      | [k, v] => parseRenameFlags rest (mapInsert acc k v)
      | _ => .error ("--rename must be of the form OLD_NAME=NEW_NAME: " ++ flag)

/-- Match-rule accumulation (part_000 lines 185–200): optionally append the
newline-split contents of `--match-file`, then trim every rule and drop the
empty ones. -/
def processRules (fs : String → Option String) (rules : List String) (rulesFile : String) :
    Except String (List String) × List (ReadTag × String) :=
  match (if rulesFile = "" then (Except.ok rules, []) else
      match fs rulesFile with
      | none => (Except.error "--match-file could not be loaded", [])
      | some data => (Except.ok (rules ++ splitLines data), [(ReadTag.rulesFile, rulesFile)])
      : Except String (List String) × List (ReadTag × String)) with
  | (.error e, r) => (.error e, r)
  | (.ok rs, r) => (.ok ((rs.map trimSpace).filter (fun s => s ≠ "")), r)

/-! ## URLs and endpoint determination -/

/-- The slice of Go's `url.URL` these programs touch. -/
structure URL where
  path : String
  rawQuery : String
  deriving DecidableEq, Repr

/-- Go `strings.TrimRight(s, "/")`. -/
def stripTrailingSlashes (s : String) : String :=
  String.mk ((s.data.reverse.dropWhile (· = '/')).reverse)

/-- Models `q := u.Query(); q.Add("id", ident); u.RawQuery = q.Encode()` from
the Go standard library just far enough for these claims: the id parameter
is added to the raw query. -/
def encodeQueryId (rawQuery ident : String) : String :=
  if rawQuery = "" then "id=" ++ ident else rawQuery ++ "&id=" ++ ident

/-- Endpoint determination and defaulting of part_000 lines 211–247.  The
result is the pair `(toUpload, toAuthorize)`.  Note that the source's first
branch assigns the parse of `--to-upload` to the variable `to`, not to
`toUpload`; the embedding mirrors this, so `toUpload` is only ever set by
defaulting from `--to`. -/
def Client.determineEndpoints (parse : String → Option URL) (pj : String → String → String)
    (toFlag toUploadFlag toAuthFlag ident : String) :
    Except String (Option URL × Option URL) :=
  match (if toUploadFlag = "" then Except.ok none else
      match parse toUploadFlag with
      | none => Except.error "--to is not a valid URL"
      | some u => Except.ok (some u)
      : Except String (Option URL)) with
  | .error e => .error e
  | .ok to0 =>
    match (if toAuthFlag = "" then Except.ok none else
        match parse toAuthFlag with
        | none => Except.error "--to-auth is not a valid URL"
        | some u => Except.ok (some u)
        : Except String (Option URL)) with
    | .error e => .error e
    | .ok toAuthorize0 =>
      if toFlag = "" then
        let _ := to0
        .ok (none, toAuthorize0)
      else
        match parse toFlag with
        | none => .error "--to is not a valid URL"
        | some t0 =>
          let t := if t0.path = "" then { t0 with path := "/" } else t0
          let toAuthorize1 := match toAuthorize0 with
            | some a => some a
            | none =>
              let u := { t with path := pj t.path "authorize" }
              let u := if ident = "" then u
                else { u with rawQuery := encodeQueryId t.rawQuery ident }
              some u
          let toUpload1 := some { t with path := pj t.path "upload" }
          .ok (toUpload1, toAuthorize1)

/-! ## The telemeter-client `Options.Run` (part_000 lines 127–308), up to
the point where the forwarder worker is started.  An `.ok` result means
the startup checks all passed and the worker goroutine is launched; an
`.error` result is returned before any worker is started and before any
transformer stage runs. -/

structure Client.Options where
  From : String
  To : String
  ToUpload : String
  ToAuthorize : String
  FromCAFile : String
  FromToken : String
  FromTokenFile : String
  ToToken : String
  ToTokenFile : String
  Identifier : String
  RenameFlag : List String
  Renames : List (String × String)
  AnonymizeLabels : List String
  AnonymizeSalt : String
  AnonymizeSaltFile : String
  Rules : List String
  RulesFile : String
  LabelFlag : List String
  Labels : List (String × String)
  deriving DecidableEq, Repr

/-- The configuration with which the worker is started when `Run` succeeds. -/
structure Client.Config where
  toToken : String
  fromToken : String
  anonymizeSalt : String
  labels : List (String × String)
  renames : List (String × String)
  rules : List String
  fromURL : URL
  toUpload : URL
  toAuthorize : URL
  labelRetriever : Bool
  deriving DecidableEq, Repr

def Client.run (parse : String → Option URL) (pj : String → String → String)
    (fs : String → Option String) (o : Client.Options) :
    Except String Client.Config × List (ReadTag × String) :=
  if o.From = "" then
    (.error "you must specify a Prometheus server to federate from (e.g. http://localhost:9090)", [])
  else
    match resolveSecret .toTokenFile "unable to read --to-token-file" fs o.ToToken o.ToTokenFile with
    | (.error e, r1) => (.error e, r1)
    | (.ok toToken, r1) =>
      match resolveSecret .fromTokenFile "unable to read --from-token-file" fs
          o.FromToken o.FromTokenFile with
      | (.error e, r2) => (.error e, r1 ++ r2)
      | (.ok fromToken, r2) =>
        match resolveSecret .anonymizeSaltFile "unable to read --anonymize-salt-file" fs
            o.AnonymizeSalt o.AnonymizeSaltFile with
        | (.error e, r3) => (.error e, r1 ++ r2 ++ r3)
        | (.ok salt, r3) =>
          if 0 < o.AnonymizeLabels.length ∧ salt = "" then
            (.error "you must specify --anonymize-salt when --anonymize-labels is used",
              r1 ++ r2 ++ r3)
          else
            match parseLabelFlags o.LabelFlag o.Labels with
            | .error e => (.error e, r1 ++ r2 ++ r3)
            | .ok labels =>
              match parseRenameFlags (if o.RenameFlag = [] then ["ALERTS=alerts"] else o.RenameFlag)
                  o.Renames with
              | .error e => (.error e, r1 ++ r2 ++ r3)
              | .ok renames =>
                match processRules fs o.Rules o.RulesFile with
                | (.error e, r4) => (.error e, r1 ++ r2 ++ r3 ++ r4)
                | (.ok rules, r4) =>
                  match parse o.From with
                  | none => (.error "--from is not a valid URL", r1 ++ r2 ++ r3 ++ r4)
                  | some from0 =>
                    let fromPath := stripTrailingSlashes from0.path
                    let fromURL : URL :=
                      { from0 with path := if fromPath = "" then "/federate" else fromPath }
                    match Client.determineEndpoints parse pj o.To o.ToUpload o.ToAuthorize
                        o.Identifier with
                    | .error e => (.error e, r1 ++ r2 ++ r3 ++ r4)
                    | .ok (toUpload?, toAuthorize?) =>
                      match toUpload?, toAuthorize? with
                      | some up, some auth =>
                        match (if o.FromCAFile = "" then (Except.ok (), []) else
                            match fs o.FromCAFile with
                            | none => (Except.error "can't read --from-ca-file", [])
                            | some _ => (Except.ok (), [(ReadTag.fromCAFile, o.FromCAFile)])
                            : Except String Unit × List (ReadTag × String)) with
                        | (.error e, r5) => (.error e, r1 ++ r2 ++ r3 ++ r4 ++ r5)
                        | (.ok _, r5) =>
                          (.ok { toToken, fromToken, anonymizeSalt := salt, labels, renames,
                                 rules, fromURL, toUpload := up, toAuthorize := auth,
                                 labelRetriever := toToken ≠ "" },
                            r1 ++ r2 ++ r3 ++ r4 ++ r5)
                      | _, _ =>
                        (.error "either --to or --to-auth and --to-upload must be specified",
                          r1 ++ r2 ++ r3 ++ r4)

/-! ## telemeter-bench -/

structure Bench.Options where
  To : String
  ToUpload : String
  ToAuthorize : String
  ToToken : String
  ToTokenFile : String
  RenameFlag : List String
  Renames : List (String × String)
  AnonymizeLabels : List String
  AnonymizeSalt : String
  AnonymizeSaltFile : String
  Rules : List String
  RulesFile : String
  LabelFlag : List String
  Labels : List (String × String)
  Interval : Int
  InitialDelay : Int
  N : Nat
  deriving DecidableEq, Repr

/-- telemeter-bench `clientAndURL` (lines 246–299): the same endpoint logic
as part_000 — including the assignment of the `--to-upload` parse to `to` —
except that the worker index is always added as the `id` query parameter.
The result is the upload URL and whether a rotating label retriever was
installed (`len(o.ToToken) > 0`). -/
def Bench.clientAndURL (parse : String → Option URL) (pj : String → String → String)
    (toFlag toUploadFlag toAuthFlag toToken : String) (id : Nat) :
    Except String (URL × Bool) :=
  match (if toUploadFlag = "" then Except.ok none else
      match parse toUploadFlag with
      | none => Except.error "--to is not a valid URL"
      | some u => Except.ok (some u)
      : Except String (Option URL)) with
  | .error e => .error e
  | .ok to0 =>
    match (if toAuthFlag = "" then Except.ok none else
        match parse toAuthFlag with
        | none => Except.error "--to-auth is not a valid URL"
        | some u => Except.ok (some u)
        : Except String (Option URL)) with
    | .error e => .error e
    | .ok toAuthorize0 =>
      match (if toFlag = "" then Except.ok (none, toAuthorize0) else
          match parse toFlag with
          | none => Except.error "--to is not a valid URL"
          | some t0 =>
            let t := if t0.path = "" then { t0 with path := "/" } else t0
            let toAuthorize1 := match toAuthorize0 with
              | some a => some a
              | none =>
                some { t with
                       path := pj t.path "authorize",
                       rawQuery := encodeQueryId t.rawQuery (toString id) }
            Except.ok (some { t with path := pj t.path "upload" }, toAuthorize1)
          : Except String (Option URL × Option URL)) with
      | .error e => .error e
      | .ok (toUpload?, toAuthorize?) =>
        match toUpload?, toAuthorize? with
        | some up, some _ =>
          let _ := to0
          .ok (up, toToken ≠ "")
        | _, _ => .error "either --to or --to-auth and --to-upload must be specified"

/-- One forwarder worker as configured by the bench `Run` loop. -/
structure Bench.Worker where
  toUpload : URL
  labelRetriever : Bool
  interval : Int
  deriving DecidableEq, Repr

/-- The `for i := 0; i < o.N; i++` loop of bench `Run` (lines 197–228),
extracting the per-worker configuration. -/
def Bench.buildWorkers (parse : String → Option URL) (pj : String → String → String)
    (toFlag toUploadFlag toAuthFlag toToken : String) (interval : Int) :
    Nat → Nat → Except String (List Bench.Worker)
  | 0, _ => .ok []
  | n + 1, i =>
    match Bench.clientAndURL parse pj toFlag toUploadFlag toAuthFlag toToken i with
    | .error e =>
      .error ("failed to generate HTTP client and URL for worker " ++ toString i ++ ": " ++ e)
    | .ok (u, lt) =>
      match Bench.buildWorkers parse pj toFlag toUploadFlag toAuthFlag toToken interval n (i + 1) with
      | .error e => .error e
      | .ok ws => .ok ({ toUpload := u, labelRetriever := lt, interval := interval } :: ws)

/-- telemeter-bench `Options.Run` (lines 133–244) up to the point where the
worker goroutines are started.  As for the client, an `.error` result is
returned before any worker is started. -/
def Bench.run (parse : String → Option URL) (pj : String → String → String)
    (fs : String → Option String) (o : Bench.Options) :
    Except String (List Bench.Worker) × List (ReadTag × String) :=
  match resolveSecret .toTokenFile "unable to read --to-token-file" fs o.ToToken o.ToTokenFile with
  | (.error e, r1) => (.error e, r1)
  | (.ok toToken, r1) =>
    match resolveSecret .anonymizeSaltFile "unable to read --anonymize-salt-file" fs
        o.AnonymizeSalt o.AnonymizeSaltFile with
    | (.error e, r2) => (.error e, r1 ++ r2)
    | (.ok salt, r2) =>
      if 0 < o.AnonymizeLabels.length ∧ salt = "" then
        (.error "you must specify --anonymize-salt when --anonymize-labels is used", r1 ++ r2)
      else
        match parseLabelFlags o.LabelFlag o.Labels with
        | .error e => (.error e, r1 ++ r2)
        | .ok _labels =>
          match parseRenameFlags (if o.RenameFlag = [] then ["ALERTS=alerts"] else o.RenameFlag)
              o.Renames with
          | .error e => (.error e, r1 ++ r2)
          | .ok _renames =>
            match processRules fs o.Rules o.RulesFile with
            | (.error e, r3) => (.error e, r1 ++ r2 ++ r3)
            | (.ok _rules, r3) =>
              match Bench.buildWorkers parse pj o.To o.ToUpload o.ToAuthorize toToken
                  o.Interval o.N 0 with
              | .error e => (.error e, r1 ++ r2 ++ r3)
              | .ok ws => (.ok ws, r1 ++ r2 ++ r3)

/-! ## The worker goroutine's initial delay (telemeter-bench lines 219–227) -/

/-- Go `math/rand.Intn(n)`: panics when `n ≤ 0` (modelled as `none`),
otherwise returns a value in `[0, n)`; the otherwise-unspecified random
source is the `seed` argument. -/
def randIntn (seed n : Int) : Option Int := if n ≤ 0 then none else some (seed % n)

/-- The delay slept before a bench worker's first cycle:
`initialDelay := o.InitialDelay; if initialDelay < 0 { initialDelay =
time.Duration(rand.Intn(int(worker.Interval))) }`.  `none` models the panic
of `rand.Intn` on a non-positive argument. -/
def workerInitialDelay (optInitialDelay interval : Int) (rand : Int → Option Int) : Option Int :=
  if optInitialDelay < 0 then rand interval else some optInitialDelay

/-! ## The standalone authorization server (src/cmd/authorization-server/main.go) -/

/-- Modelled from the spec: `server.Key` of pkg/authorizer/server is not
part of src/; spec §3: "Cluster identity key: pair (bearer token, cluster
identifier)". -/
structure Key where
  token : String
  cluster : String
  deriving DecidableEq, Repr

/-- Modelled from the spec: `server.TokenResponse` of pkg/authorizer/server
is not part of src/; spec §3: "issued access token string, optional expiry,
and a LabelSet".  Only its identity matters to the claims. -/
structure TokenResponse where
  accessToken : String
  expiresInSeconds : Option Int
  labels : List (String × String)
  deriving DecidableEq, Repr

/-- One entry of the configured JSON responses file. -/
structure SavedResponse where
  token : String
  cluster : String
  response : TokenResponse
  deriving DecidableEq, Repr

/-- The authorization server state configured by `main`. -/
structure AuthServer where
  allowNewClusters : Bool
  responses : List (Key × TokenResponse)
  deriving DecidableEq, Repr

/-- Go map insertion for the responses table. -/
def keyInsert (m : List (Key × TokenResponse)) (k : Key) (v : TokenResponse) :
    List (Key × TokenResponse) :=
  match m with
  | [] => [(k, v)]
  | (k', v') :: rest => if k' = k then (k, v) :: rest else (k', v') :: keyInsert rest k v

/-- Go map lookup for the responses table. -/
def keyLookup (m : List (Key × TokenResponse)) (k : Key) : Option TokenResponse :=
  match m with
  | [] => none
  | (k', v') :: rest => if k' = k then some v' else keyLookup rest k

/-- The table slot under which `main` stores entry `r`
(authorization-server main.go line 39). -/
def storedKey (r : SavedResponse) : Key := { token := r.token, cluster := r.cluster }

/-- The server set up by authorization-server `main` lines 34–40:
`AllowNewClusters` is enabled and every configured entry is stored under
`Key{Token: r.Token, Cluster: r.Cluster}`. -/
def buildServer (responses : List SavedResponse) : AuthServer :=
  { allowNewClusters := true
    responses := responses.foldl (fun m r => keyInsert m (storedKey r) r.response) [] }

/-! ## The `/federate` inspection handler (`serveLastMetrics`,
part_000 lines 311–330) -/

structure HttpRequest where
  method : String
  deriving DecidableEq, Repr

structure HttpResponse where
  status : Nat
  contentType : Option String
  body : String
  deriving DecidableEq, Repr

/-- The content type written for the last-metrics page:
`string(expfmt.FmtText)`. -/
def fmtText : String := "text/plain; version=0.0.4"

/-- The encoding loop of `serveLastMetrics`: nil families are skipped, and
an encoder error stops the loop (`break`).  `encode` stands for the
`expfmt` text-exposition encoder, which is an external collaborator. -/
def encodeFamilies (encode : MetricFamily → Except String String) :
    List (Option MetricFamily) → String
  | [] => ""
  | none :: rest => encodeFamilies encode rest
  | some f :: rest =>
    match encode f with
    | .error _ => ""
    | .ok s => s ++ encodeFamilies encode rest

/-- The handler returned by `serveLastMetrics`: non-GET requests get
405 Method Not Allowed and no body; GET requests get the worker's last
metrics in the text exposition format with status 200 (the Go default when
`WriteHeader` is never called). -/
def serveLastMetrics (encode : MetricFamily → Except String String)
    (lastMetrics : List (Option MetricFamily)) (req : HttpRequest) : HttpResponse :=
  if req.method ≠ "GET" then { status := 405, contentType := none, body := "" }
  else { status := 200, contentType := some fmtText,
         body := encodeFamilies encode lastMetrics }

/-! ## Concrete values used by witnesses -/

/-- A URL parser that accepts everything, for witness instantiations. -/
def parseFix : String → Option URL := fun _ => some { path := "", rawQuery := "" }

/-- A simple `path.Join` stand-in, for witness instantiations. -/
def pjFix (a b : String) : String := a ++ "/" ++ b

/-- A file system with no readable files, for witness instantiations. -/
def fsEmpty : String → Option String := fun _ => none

/-- A minimal client configuration: a source, a destination, and nothing
else. -/
def clientOpts4 : Client.Options :=
  { From := "http://localhost:9090", To := "http://server", ToUpload := "", ToAuthorize := "",
    FromCAFile := "", FromToken := "", FromTokenFile := "", ToToken := "", ToTokenFile := "",
    Identifier := "", RenameFlag := [], Renames := [], AnonymizeLabels := [],
    AnonymizeSalt := "", AnonymizeSaltFile := "", Rules := [], RulesFile := "",
    LabelFlag := [], Labels := [] }

/-- The startup configuration produced by `Client.run` on `clientOpts4`. -/
def clientCfg4 : Client.Config :=
  { toToken := "", fromToken := "", anonymizeSalt := "", labels := [],
    renames := [("ALERTS", "alerts")], rules := [],
    fromURL := { path := "/federate", rawQuery := "" },
    toUpload := { path := "//upload", rawQuery := "" },
    toAuthorize := { path := "//authorize", rawQuery := "" },
    labelRetriever := false }

/-- Anonymization requested with no salt available, client side. -/
def clientOptsNoSalt : Client.Options :=
  { clientOpts4 with AnonymizeLabels := ["hostname"] }

/-- Anonymization requested with no salt available, bench side. -/
def benchOptsNoSalt : Bench.Options :=
  { To := "http://server", ToUpload := "", ToAuthorize := "", ToToken := "", ToTokenFile := "",
    RenameFlag := [], Renames := [], AnonymizeLabels := ["hostname"], AnonymizeSalt := "",
    AnonymizeSaltFile := "", Rules := [], RulesFile := "", LabelFlag := [], Labels := [],
    Interval := 270000, InitialDelay := -1, N := 1 }

/-- No destination configured at all. -/
def clientOptsNoTo : Client.Options :=
  { clientOpts4 with To := "" }

/-- A file system holding one token file, for the C9 witness. -/
def fsTok : String → Option String :=
  fun p => if p = "tokfile" then some " tok \n" else none

/-- A concrete stand-in for the expfmt text encoder. -/
def encodeFix : MetricFamily → Except String String := fun f => .ok (f.name ++ "\n")

end Telemeter

namespace Telemeter

/-! # Helper lemmas -/

/-- Inline value present: the file is not consulted. -/
theorem resolveSecret_inline (tag : ReadTag) (msg : String) (fs : String → Option String)
    (inlineVal file : String) (h : inlineVal ≠ "") :
    resolveSecret tag msg fs inlineVal file = (.ok inlineVal, []) := by
  simp [resolveSecret, h]

/-- Inline value and file name both empty: nothing is read. -/
theorem resolveSecret_nofile (tag : ReadTag) (msg : String) (fs : String → Option String)
    (inlineVal : String) (h : inlineVal = "") :
    resolveSecret tag msg fs inlineVal "" = (.ok inlineVal, []) := by
  simp [resolveSecret, h]

/-- Inline value empty and the file readable: the trimmed contents win. -/
theorem resolveSecret_file (tag : ReadTag) (msg : String) (fs : String → Option String)
    (file d : String) (hf : file ≠ "") (hd : fs file = some d) :
    resolveSecret tag msg fs "" file = (.ok (trimSpace d), [(tag, file)]) := by
  simp [resolveSecret, hf, hd]

/-- When no non-blank salt is available, resolution yields the empty salt or
an error. -/
theorem resolveSecret_empty (tag : ReadTag) (msg : String) (fs : String → Option String)
    (file : String) (hfs : ∀ d, fs file = some d → trimSpace d = "") :
    (resolveSecret tag msg fs "" file).1 = .ok ""
    ∨ ∃ e, (resolveSecret tag msg fs "" file).1 = .error e := by
  by_cases hf : file = ""
  · subst hf; simp [resolveSecret]
  · cases hd : fs file with
    | none => right; exact ⟨msg, by simp [resolveSecret, hf, hd]⟩
    | some d => left; simp [resolveSecret, hf, hd, hfs d hd]

/-- Inversion of a successful telemeter-client `Run` startup. -/
theorem clientRunOk {parse : String → Option URL} {pj : String → String → String}
    {fs : String → Option String} {o : Client.Options} {cfg : Client.Config}
    (h : (Client.run parse pj fs o).1 = .ok cfg) :
    o.From ≠ ""
    ∧ (resolveSecret .toTokenFile "unable to read --to-token-file" fs
        o.ToToken o.ToTokenFile).1 = .ok cfg.toToken
    ∧ (resolveSecret .fromTokenFile "unable to read --from-token-file" fs
        o.FromToken o.FromTokenFile).1 = .ok cfg.fromToken
    ∧ (resolveSecret .anonymizeSaltFile "unable to read --anonymize-salt-file" fs
        o.AnonymizeSalt o.AnonymizeSaltFile).1 = .ok cfg.anonymizeSalt
    ∧ ¬(0 < o.AnonymizeLabels.length ∧ cfg.anonymizeSalt = "")
    ∧ parseLabelFlags o.LabelFlag o.Labels = .ok cfg.labels
    ∧ parseRenameFlags (if o.RenameFlag = [] then ["ALERTS=alerts"] else o.RenameFlag)
        o.Renames = .ok cfg.renames
    ∧ (processRules fs o.Rules o.RulesFile).1 = .ok cfg.rules
    ∧ Client.determineEndpoints parse pj o.To o.ToUpload o.ToAuthorize o.Identifier
        = .ok (some cfg.toUpload, some cfg.toAuthorize) := by
  unfold Client.run at h
  repeat' split at h
  any_goals (exfalso; revert h; simp; done)
  simp at h
  subst h
  simp_all

/-- Inversion of a successful telemeter-bench `Run` startup: the salt
resolution succeeded and did not leave an empty salt alongside a non-empty
anonymize-label list. -/
theorem benchRunOk {parse : String → Option URL} {pj : String → String → String}
    {fs : String → Option String} {o : Bench.Options} {ws : List Bench.Worker}
    (h : (Bench.run parse pj fs o).1 = .ok ws) :
    exceptIsOk (resolveSecret .anonymizeSaltFile "unable to read --anonymize-salt-file" fs
      o.AnonymizeSalt o.AnonymizeSaltFile).1 = true
    ∧ ¬(0 < o.AnonymizeLabels.length ∧
        (resolveSecret .anonymizeSaltFile "unable to read --anonymize-salt-file" fs
          o.AnonymizeSalt o.AnonymizeSaltFile).1 = .ok "") := by
  unfold Bench.run at h
  repeat' split at h
  any_goals (exfalso; revert h; simp; done)
  simp_all [exceptIsOk]

/-- With no `--to`, the sources' endpoint determination can never produce an
upload URL, because its `--to-upload` branch assigns to `to` instead of
`toUpload`. -/
theorem clientEndpointsToEmpty {parse : String → Option URL} {pj : String → String → String}
    {toUploadFlag toAuthFlag ident : String} {u a : Option URL}
    (h : Client.determineEndpoints parse pj "" toUploadFlag toAuthFlag ident = .ok (u, a)) :
    u = none := by
  unfold Client.determineEndpoints at h
  repeat' split at h
  all_goals simp_all

end Telemeter

namespace Telemeter

/-! # Claim theorems -/

/-- C1: For every configuration, the transformer chain built by
`Transforms()` lists its stages in the canonical relative order
label injection, anonymization, renaming, staleness drop, packing,
deterministic sorting; the first three stages are present exactly when
their configuration is non-empty, and the last three are always present. -/
theorem transforms_chain_canonical (nowMs : Int) (t : TransformConfig) :
    ((Transforms nowMs t).map stageOf).Sublist canonicalStages
    ∧ (Stage.label ∈ (Transforms nowMs t).map stageOf ↔
        (0 < t.labels.length ∨ t.labelRetriever = true))
    ∧ (Stage.anonymize ∈ (Transforms nowMs t).map stageOf ↔ 0 < t.anonymizeLabels.length)
    ∧ (Stage.rename ∈ (Transforms nowMs t).map stageOf ↔ 0 < t.renames.length)
    ∧ Stage.dropStale ∈ (Transforms nowMs t).map stageOf
    ∧ Stage.pack ∈ (Transforms nowMs t).map stageOf
    ∧ Stage.sort ∈ (Transforms nowMs t).map stageOf := by
  by_cases h1 : 0 < t.labels.length ∨ t.labelRetriever = true
    <;> by_cases h2 : 0 < t.anonymizeLabels.length
    <;> by_cases h3 : 0 < t.renames.length
  all_goals simp [Transforms, stageOf, canonicalStages, h1, h2, h3]
  all_goals decide

/-- C2: When anonymize-labels are configured but no salt is available —
no inline salt, and the salt file missing, unreadable, or blank — both
programs' `Run` returns an error before any worker is started and before
any transformer stage runs. -/
theorem missing_salt_rejected (parse : String → Option URL) (pj : String → String → String)
    (fsc fsb : String → Option String) (oc : Client.Options) (ob : Bench.Options)
    (h1 : 0 < oc.AnonymizeLabels.length) (h2 : oc.AnonymizeSalt = "")
    (h3 : ∀ d, fsc oc.AnonymizeSaltFile = some d → trimSpace d = "")
    (h4 : 0 < ob.AnonymizeLabels.length) (h5 : ob.AnonymizeSalt = "")
    (h6 : ∀ d, fsb ob.AnonymizeSaltFile = some d → trimSpace d = "") :
    exceptIsOk (Client.run parse pj fsc oc).1 = false
    ∧ exceptIsOk (Bench.run parse pj fsb ob).1 = false := by
  constructor
  · cases hrun : (Client.run parse pj fsc oc).1 with
    | error e => simp [exceptIsOk]
    | ok cfg =>
      exfalso
      have inv := clientRunOk hrun
      have hsalt := inv.2.2.2.1
      have hnot := inv.2.2.2.2.1
      rw [h2] at hsalt
      rcases resolveSecret_empty .anonymizeSaltFile "unable to read --anonymize-salt-file"
          fsc oc.AnonymizeSaltFile h3 with hok | ⟨e, herr⟩
      · rw [hok] at hsalt
        exact hnot ⟨h1, (Except.ok.inj hsalt).symm⟩
      · rw [herr] at hsalt
        exact Except.noConfusion hsalt
  · cases hrun : (Bench.run parse pj fsb ob).1 with
    | error e => simp [exceptIsOk]
    | ok ws =>
      exfalso
      have inv := benchRunOk hrun
      rw [h5] at inv
      rcases resolveSecret_empty .anonymizeSaltFile "unable to read --anonymize-salt-file"
          fsb ob.AnonymizeSaltFile h6 with hok | ⟨e, herr⟩
      · exact inv.2 ⟨h4, hok⟩
      · rw [herr] at inv
        simp [exceptIsOk] at inv

/-- C3: The staleness-drop stage is always built with a cutoff of 24 hours
before "now", and dropping keeps exactly the samples whose timestamp is at
least the cutoff together with every sample that lacks a timestamp. -/
theorem staleness_drop_window (nowMs : Int) (t : TransformConfig) (f : MetricFamily)
    (m : Metric) :
    Transformer.dropInvalidFederateSamples (nowMs - 24 * 60 * 60 * 1000) ∈ Transforms nowMs t
    ∧ (m ∈ (dropStaleSamples (nowMs - 24 * 60 * 60 * 1000) f).metrics ↔
        m ∈ f.metrics ∧ (m.timestampMs = none ∨
          ∃ ts, m.timestampMs = some ts ∧ nowMs - 24 * 60 * 60 * 1000 ≤ ts)) := by
  constructor
  · simp [Transforms]
  · simp only [dropStaleSamples, List.mem_filter]
    refine and_congr_right fun _ => ?_
    cases hts : m.timestampMs with
    | none => simp [hts]
    | some ts => simp [hts]

/-- C4: With no rename flags supplied, `Run` installs exactly the mapping
`ALERTS → alerts`, under which renaming maps a family named `ALERTS` to
`alerts` and leaves every other family unchanged. -/
theorem default_rename_installed (parse : String → Option URL) (pj : String → String → String)
    (fs : String → Option String) (o : Client.Options)
    (hflag : o.RenameFlag = []) (hmap : o.Renames = []) :
    ∀ cfg, (Client.run parse pj fs o).1 = .ok cfg →
      cfg.renames = [("ALERTS", "alerts")]
      ∧ ∀ f : MetricFamily, renameMetrics cfg.renames f =
          if f.name = "ALERTS" then { f with name := "alerts" } else f := by
  intro cfg hrun
  have inv := clientRunOk hrun
  have hr := inv.2.2.2.2.2.2.1
  rw [hflag, hmap] at hr
  have hcomp : parseRenameFlags (if ([] : List String) = [] then ["ALERTS=alerts"] else []) []
      = .ok [("ALERTS", "alerts")] := rfl
  rw [hcomp] at hr
  have hren : cfg.renames = [("ALERTS", "alerts")] := (Except.ok.inj hr).symm
  refine ⟨hren, fun f => ?_⟩
  rw [hren]
  by_cases hn : f.name = "ALERTS"
  · simp [renameMetrics, mapLookup, hn]
  · simp [renameMetrics, mapLookup, hn, Ne.symm hn]

/-- C5: A worker started with a negative `--delay` sleeps a randomized
duration that is at least zero and strictly below its push interval; a
non-negative `--delay` is slept exactly. -/
theorem randomized_initial_delay_bounds (seed optDelay interval : Int) (hpos : 0 < interval) :
    (optDelay < 0 → ∃ d, workerInitialDelay optDelay interval (randIntn seed) = some d
      ∧ 0 ≤ d ∧ d < interval)
    ∧ (0 ≤ optDelay → workerInitialDelay optDelay interval (randIntn seed) = some optDelay) := by
  constructor
  · intro hneg
    refine ⟨seed % interval, ?_, Int.emod_nonneg seed (by omega), Int.emod_lt_of_pos seed hpos⟩
    simp [workerInitialDelay, randIntn, hneg, not_le.mpr hpos]
  · intro hge
    simp [workerInitialDelay, not_lt.mpr hge]

/-- C6: If, after URL parsing and defaulting, no upload or no authorize
endpoint was determined, the client `Run` fails before starting a worker;
in particular supplying neither `--to` nor both `--to-auth` and
`--to-upload` is rejected. -/
theorem missing_endpoints_rejected (parse : String → Option URL) (pj : String → String → String)
    (fs : String → Option String) (o : Client.Options) :
    (∀ u a, Client.determineEndpoints parse pj o.To o.ToUpload o.ToAuthorize o.Identifier
        = .ok (u, a) → (u = none ∨ a = none) →
      exceptIsOk (Client.run parse pj fs o).1 = false)
    ∧ (o.To = "" → ¬(o.ToAuthorize ≠ "" ∧ o.ToUpload ≠ "") →
      exceptIsOk (Client.run parse pj fs o).1 = false) := by
  constructor
  · intro u a hdet hnone
    cases hrun : (Client.run parse pj fs o).1 with
    | error e => simp [exceptIsOk]
    | ok cfg =>
      exfalso
      have inv := clientRunOk hrun
      have hend := inv.2.2.2.2.2.2.2.2
      rw [hdet] at hend
      have hpair := Except.ok.inj hend
      rcases hnone with hu | ha
      · rw [hu] at hpair
        exact Option.noConfusion (congrArg Prod.fst hpair)
      · rw [ha] at hpair
        exact Option.noConfusion (congrArg Prod.snd hpair)
  · intro hTo _
    cases hrun : (Client.run parse pj fs o).1 with
    | error e => simp [exceptIsOk]
    | ok cfg =>
      exfalso
      have inv := clientRunOk hrun
      have hend := inv.2.2.2.2.2.2.2.2
      rw [hTo] at hend
      exact Option.noConfusion (clientEndpointsToEmpty hend)

end Telemeter

namespace Telemeter

/-- C7: The authorization server stores each configured response under
exactly the `(token, cluster)` pair of its JSON entry — two entries share a
table slot iff both token and cluster agree — and is started with dynamic
registration of new clusters enabled. -/
theorem authserver_key_and_registration (rs : List SavedResponse) :
    (buildServer rs).allowNewClusters = true
    ∧ (∀ r1 r2 : SavedResponse, storedKey r1 = storedKey r2 ↔
        (r1.token = r2.token ∧ r1.cluster = r2.cluster))
    ∧ (∀ r : SavedResponse, (buildServer (rs ++ [r])).responses =
        keyInsert (buildServer rs).responses (storedKey r) r.response)
    ∧ (∀ (m : List (Key × TokenResponse)) (k k' : Key) (v : TokenResponse),
        keyLookup (keyInsert m k v) k' = if k = k' then some v else keyLookup m k') := by
  refine ⟨rfl, ?_, ?_, ?_⟩
  · intro r1 r2
    simp [storedKey, Key.mk.injEq]
  · intro r
    simp [buildServer, List.foldl_append]
  · intro m k k' v
    induction m with
    | nil => simp [keyInsert, keyLookup]
    | cons hd tl ih =>
      obtain ⟨k'', v''⟩ := hd
      by_cases h1 : k'' = k
      · subst h1
        by_cases h2 : k'' = k'
        · simp [keyInsert, keyLookup, h2]
        · simp [keyInsert, keyLookup, h2]
      · by_cases h2 : k'' = k'
        · by_cases h3 : k = k'
          · exact absurd (h2.trans h3.symm) h1
          · simp [keyInsert, keyLookup, h1, h2, h3, Ne.symm h3]
        · by_cases h3 : k = k'
          · rw [h3] at ih
            simp at ih
            simp [keyInsert, keyLookup, h1, h2, h3, ih]
          · simp [keyInsert, keyLookup, h1, h2, h3, ih]

/-- C8: The `serveLastMetrics` handler answers non-GET requests with
405 Method Not Allowed and writes no metrics; GET requests receive the
worker's last batch in the text exposition format. -/
theorem serveLastMetrics_method_check (encode : MetricFamily → Except String String)
    (lastMetrics : List (Option MetricFamily)) (req : HttpRequest) :
    (req.method ≠ "GET" → serveLastMetrics encode lastMetrics req =
      { status := 405, contentType := none, body := "" })
    ∧ (req.method = "GET" → serveLastMetrics encode lastMetrics req =
      { status := 200, contentType := some fmtText,
        body := encodeFamilies encode lastMetrics }) := by
  constructor
  · intro h; simp [serveLastMetrics, h]
  · intro h; simp [serveLastMetrics, h]

/-- C9: An inline bearer token or anonymization salt takes precedence over
its file-sourced counterpart: the file is consulted only when the inline
value is empty, its contents are whitespace-trimmed when it is read, and a
successful `Run` keeps the inline values. -/
theorem inline_secret_precedence (fs : String → Option String) (tag : ReadTag)
    (msg inlineVal file : String) (parse : String → Option URL)
    (pj : String → String → String) (o : Client.Options) :
    (inlineVal ≠ "" → resolveSecret tag msg fs inlineVal file = (.ok inlineVal, []))
    ∧ (inlineVal = "" → file = "" → resolveSecret tag msg fs inlineVal file = (.ok inlineVal, []))
    ∧ (∀ d, inlineVal = "" → file ≠ "" → fs file = some d →
        resolveSecret tag msg fs inlineVal file = (.ok (trimSpace d), [(tag, file)]))
    ∧ (∀ cfg, (Client.run parse pj fs o).1 = .ok cfg →
        (o.ToToken ≠ "" → cfg.toToken = o.ToToken)
        ∧ (o.FromToken ≠ "" → cfg.fromToken = o.FromToken)
        ∧ (o.AnonymizeSalt ≠ "" → cfg.anonymizeSalt = o.AnonymizeSalt)) := by
  refine ⟨resolveSecret_inline tag msg fs inlineVal file, ?_, ?_, ?_⟩
  · intro h1 h2
    subst h2
    exact resolveSecret_nofile tag msg fs inlineVal h1
  · intro d h1 h2 h3
    subst h1
    exact resolveSecret_file tag msg fs file d h2 h3
  · intro cfg hrun
    have inv := clientRunOk hrun
    refine ⟨fun hne => ?_, fun hne => ?_, fun hne => ?_⟩
    · have h := inv.2.1
      rw [resolveSecret_inline _ _ _ _ _ hne] at h
      exact (Except.ok.inj h).symm
    · have h := inv.2.2.1
      rw [resolveSecret_inline _ _ _ _ _ hne] at h
      exact (Except.ok.inj h).symm
    · have h := inv.2.2.2.1
      rw [resolveSecret_inline _ _ _ _ _ hne] at h
      exact (Except.ok.inj h).symm

/-- C10: With a negative `--delay`, computing the randomized initial delay
calls `rand.Intn(int(worker.Interval))`, which panics when the interval is
zero; a positive interval is a precondition for the randomized delay. -/
theorem zero_interval_delay_panics (seed optDelay : Int) (hneg : optDelay < 0) :
    workerInitialDelay optDelay 0 (randIntn seed) = none
    ∧ ∀ interval : Int, 0 < interval →
        ∃ d, workerInitialDelay optDelay interval (randIntn seed) = some d := by
  constructor
  · simp [workerInitialDelay, randIntn, hneg]
  · intro interval hpos
    exact ⟨seed % interval, by simp [workerInitialDelay, randIntn, hneg, not_le.mpr hpos]⟩

end Telemeter

namespace Telemeter

/-! # Witnesses -/

/-- Witness for C2 at a concrete configuration. -/
theorem missing_salt_rejected_witness :
    exceptIsOk (Client.run parseFix pjFix fsEmpty clientOptsNoSalt).1 = false
    ∧ exceptIsOk (Bench.run parseFix pjFix fsEmpty benchOptsNoSalt).1 = false :=
  missing_salt_rejected parseFix pjFix fsEmpty fsEmpty clientOptsNoSalt benchOptsNoSalt
    (by decide) rfl (fun d h => absurd h (by simp [fsEmpty]))
    (by decide) rfl (fun d h => absurd h (by simp [fsEmpty]))

/-- Witness for C4 at a concrete configuration with no rename flags. -/
theorem default_rename_installed_witness :
    (Client.run parseFix pjFix fsEmpty clientOpts4).1 = .ok clientCfg4
    ∧ clientCfg4.renames = [("ALERTS", "alerts")]
    ∧ renameMetrics clientCfg4.renames { name := "ALERTS", metrics := [] } =
        { name := "alerts", metrics := [] }
    ∧ renameMetrics clientCfg4.renames { name := "up", metrics := [] } =
        { name := "up", metrics := [] } := by
  have hrun : (Client.run parseFix pjFix fsEmpty clientOpts4).1 = .ok clientCfg4 := rfl
  have happ := default_rename_installed parseFix pjFix fsEmpty clientOpts4 rfl rfl
    clientCfg4 hrun
  refine ⟨hrun, happ.1, ?_, ?_⟩
  · rw [happ.2 { name := "ALERTS", metrics := [] }]
    rfl
  · rw [happ.2 { name := "up", metrics := [] }]
    rfl

/-- Witness for C5 at concrete delays and interval. -/
theorem randomized_initial_delay_bounds_witness :
    (∃ d, workerInitialDelay (-1) 10 (randIntn 7) = some d ∧ 0 ≤ d ∧ d < 10)
    ∧ workerInitialDelay 3 10 (randIntn 7) = some 3 :=
  ⟨(randomized_initial_delay_bounds 7 (-1) 10 (by decide)).1 (by decide),
   (randomized_initial_delay_bounds 7 3 10 (by decide)).2 (by decide)⟩

/-- Witness for C6 at a concrete configuration with no destination. -/
theorem missing_endpoints_rejected_witness :
    exceptIsOk (Client.run parseFix pjFix fsEmpty clientOptsNoTo).1 = false :=
  (missing_endpoints_rejected parseFix pjFix fsEmpty clientOptsNoTo).2 rfl (by decide)

/-- Witness for C8 at concrete requests. -/
theorem serveLastMetrics_method_check_witness :
    serveLastMetrics encodeFix [some { name := "up", metrics := [] }] { method := "POST" } =
      { status := 405, contentType := none, body := "" }
    ∧ serveLastMetrics encodeFix [some { name := "up", metrics := [] }] { method := "GET" } =
      { status := 200, contentType := some fmtText, body := "up\n" } := by
  constructor
  · exact (serveLastMetrics_method_check encodeFix [some { name := "up", metrics := [] }]
      { method := "POST" }).1 (by decide)
  · rw [(serveLastMetrics_method_check encodeFix [some { name := "up", metrics := [] }]
      { method := "GET" }).2 rfl]
    rfl

/-- Witness for C9 at a concrete file system. -/
theorem inline_secret_precedence_witness :
    resolveSecret .toTokenFile "unable to read --to-token-file" fsTok "inline" "tokfile" =
      (.ok "inline", [])
    ∧ resolveSecret .toTokenFile "unable to read --to-token-file" fsTok "" "tokfile" =
      (.ok "tok", [(.toTokenFile, "tokfile")]) := by
  constructor
  · exact (inline_secret_precedence fsTok .toTokenFile "unable to read --to-token-file"
      "inline" "tokfile" parseFix pjFix clientOpts4).1 (by decide)
  · rw [(inline_secret_precedence fsTok .toTokenFile "unable to read --to-token-file"
      "" "tokfile" parseFix pjFix clientOpts4).2.2.1 " tok \n" rfl (by decide) (by decide)]
    rfl

/-- Witness for C10 at a concrete negative delay. -/
theorem zero_interval_delay_panics_witness :
    workerInitialDelay (-1) 0 (randIntn 7) = none
    ∧ ∃ d, workerInitialDelay (-1) 5 (randIntn 7) = some d :=
  ⟨(zero_interval_delay_panics 7 (-1) (by decide)).1,
   (zero_interval_delay_panics 7 (-1) (by decide)).2 5 (by decide)⟩

end Telemeter
